import Mathlib

/-!
Shallow embedding of the multiplayer whiteboard core
(`src/components/Whiteboard.tsx`).

The component keeps its state in React hooks and a ref:
`isDrawing`, `tool`, `color`, `size`, `currentStroke`, `onlineUsers`,
`isConnected`, `drawingHistory`, plus a 2d canvas context.  We embed that
state as the structure `Replica`, the 2d context as `Ctx`, and each event
handler (`startDrawing`, `draw`, `stopDrawing`, `drawRemoteStroke`,
`clearCanvas`, `handleClear`, `handleUndo`, `redrawCanvas`, the
`channel.onMessage` and `channel.onPresence` callbacks) as a state
transition.  Canvas 2d calls are embedded as a command list (`CanvasCmd`)
interpreted over `Ctx`; a white `fillRect` over the whole canvas is
embedded as resetting the painted-op list to `[]` (the raster is the white
background with `ops` applied in order).  Publishes on the realtime
channel are collected in an output list (`OutMsg`); a publish returns a
success/failure outcome that the handler observes, taken here as a `Bool`
parameter.  Wall-clock values (`Date.now()`) are taken as parameters.
The canvas element and its 2d context are assumed present (the `!ctx`
early returns never fire in the embedded runs).
-/

namespace Whiteboard

/-- A canvas-local coordinate pair, as produced by `getCanvasCoordinates`. -/
structure Point where
  x : Int
  y : Int
deriving DecidableEq, Repr

/-- The `type` field of `DrawingData`: `'draw' | 'erase'`. -/
inductive StrokeType where
  | draw
  | erase
deriving DecidableEq, Repr

/-- The `DrawingData` record built in `stopDrawing` (lines 176–183). -/
structure DrawingData where
  id : String
  type : StrokeType
  points : List Point
  color : String
  size : Nat
  timestamp : Nat
deriving DecidableEq, Repr

/-- Presence metadata (`User.metadata` in the source). -/
structure UserMeta where
  displayName : Option String
  cursor : Option Point
deriving DecidableEq, Repr

/-- A presence entry (`User` interface in the source). -/
structure Participant where
  userId : String
  metadata : Option UserMeta
deriving DecidableEq, Repr

/-- The tool selected in the toolbar: `'pen' | 'eraser'`. -/
inductive Tool where
  | pen
  | eraser
deriving DecidableEq, Repr

/-- `globalCompositeOperation` values the component uses. -/
inductive CompositeOp where
  | sourceOver
  | destinationOut
deriving DecidableEq, Repr

/-- One `ctx.stroke()` effect on the raster: the path that was stroked
together with the context settings in force at that moment. -/
structure PaintOp where
  path : List Point
  composite : CompositeOp
  color : String
  width : Nat
deriving DecidableEq, Repr

/-- The embedded 2d context.  `ops` is the painted content accumulated
since the last full white fill (so `ops = []` means the surface equals the
solid white background fill); `path` is the current path built by
`beginPath`/`moveTo`/`lineTo`. -/
structure Ctx where
  ops : List PaintOp
  path : List Point
  composite : CompositeOp
  strokeStyle : String
  lineWidth : Nat
  fillStyle : String
deriving DecidableEq, Repr

/-- Canvas 2d calls issued by the component. -/
inductive CanvasCmd where
  | beginPath
  | moveTo (p : Point)
  | lineTo (p : Point)
  | setComposite (op : CompositeOp)
  | setStrokeStyle (c : String)
  | setLineWidth (w : Nat)
  | strokeCmd
deriving DecidableEq, Repr

/-- Interpret one canvas call on the context.  `stroke()` records the
current path with the current settings as a raster `PaintOp` and keeps the
path (the source never clears the path on `stroke`). -/
def applyCmd (ctx : Ctx) : CanvasCmd → Ctx
  | .beginPath => { ctx with path := [] }
  | .moveTo p => { ctx with path := [p] }
  | .lineTo p => { ctx with path := ctx.path ++ [p] }
  | .setComposite op => { ctx with composite := op }
  | .setStrokeStyle c => { ctx with strokeStyle := c }
  | .setLineWidth w => { ctx with lineWidth := w }
  | .strokeCmd =>
      { ctx with ops := ctx.ops ++ [⟨ctx.path, ctx.composite, ctx.strokeStyle, ctx.lineWidth⟩] }

/-- The settings branch shared by `draw` (lines 158–165) and
`drawRemoteStroke` (lines 204–211): a draw stroke sets source-over,
the stroke color and the recorded width; an erase stroke sets
destination-out and `size * 2`, and issues no `strokeStyle` assignment. -/
def settingsCmds : StrokeType → String → Nat → List CanvasCmd
  | .draw, c, w => [.setComposite .sourceOver, .setStrokeStyle c, .setLineWidth w]
  | .erase, _, w => [.setComposite .destinationOut, .setLineWidth (w * 2)]

/-- The `type` recorded for the active tool (`tool === 'pen' ? 'draw' : 'erase'`). -/
def toolType : Tool → StrokeType
  | .pen => .draw
  | .eraser => .erase

/-- The canvas calls `drawRemoteStroke` (lines 196–218) issues: nothing
when the point list is empty; otherwise `beginPath`, `moveTo` the first
point, the settings branch, `lineTo` every point in order (the first point
again included, as the source's `forEach` iterates the whole list), then
one `stroke()`. -/
def drawRemoteStrokeCmds (d : DrawingData) : List CanvasCmd :=
  match d.points with
  | [] => []
  | p :: _ =>
      [.beginPath, .moveTo p] ++ settingsCmds d.type d.color d.size
        ++ d.points.map .lineTo ++ [.strokeCmd]

/-- `drawRemoteStroke` as a context transition. -/
def drawRemoteStroke (ctx : Ctx) (d : DrawingData) : Ctx :=
  (drawRemoteStrokeCmds d).foldl applyCmd ctx

/-- The points a command stream visits via `lineTo` — the decoded point
list of a replayed stroke. -/
def lineToPoints : List CanvasCmd → List Point
  | [] => []
  | .lineTo p :: cmds => p :: lineToPoints cmds
  | _ :: cmds => lineToPoints cmds

/-- The stroke colors a command stream assigns. -/
def colorSettings : List CanvasCmd → List String
  | [] => []
  | .setStrokeStyle s :: cmds => s :: colorSettings cmds
  | _ :: cmds => colorSettings cmds

/-- The line widths a command stream assigns. -/
def widthSettings : List CanvasCmd → List Nat
  | [] => []
  | .setLineWidth w :: cmds => w :: widthSettings cmds
  | _ :: cmds => widthSettings cmds

/-- The compositing operations a command stream assigns. -/
def compositeSettings : List CanvasCmd → List CompositeOp
  | [] => []
  | .setComposite op :: cmds => op :: compositeSettings cmds
  | _ :: cmds => compositeSettings cmds

/-- A message published on the channel (`channel.publish` calls). -/
inductive OutMsg where
  | draw (data : DrawingData) (userId : String)
  | clear (userId : String)
deriving DecidableEq, Repr

/-- An inbound channel message as received by the `onMessage` handler. -/
structure InboundMsg where
  type : String
  userId : String
  data : DrawingData
deriving DecidableEq, Repr

/-- One replica of the whiteboard: the component's hook state, the
history ref and the canvas context, plus the local participant id
(`user.id`). -/
structure Replica where
  userId : String
  isDrawing : Bool
  tool : Tool
  color : String
  size : Nat
  currentStroke : List Point
  onlineUsers : List Participant
  isConnected : Bool
  drawingHistory : List DrawingData
  ctx : Ctx
deriving DecidableEq, Repr

/-- `clearCanvas` (lines 220–228): fill the whole canvas white and reset
the history ref to the empty array. -/
def clearCanvas (r : Replica) : Replica :=
  { r with
      ctx := { r.ctx with fillStyle := "#ffffff", ops := [] }
      drawingHistory := [] }

/-- `redrawCanvas` (lines 247–257): call `clearCanvas()` — which also
empties `drawingHistory.current` — then iterate the (now current) history
ref, replaying each entry with `drawRemoteStroke`. -/
def redrawCanvas (r : Replica) : Replica :=
  let r1 := clearCanvas r
  r1.drawingHistory.foldl
    (fun acc d => { acc with ctx := drawRemoteStroke acc.ctx d }) r1

/-- `handleUndo` (lines 240–245): no-op on an empty history, else `pop()`
the last entry and call `redrawCanvas`.  Publishes nothing. -/
def handleUndo (r : Replica) : Replica × List OutMsg :=
  if r.drawingHistory.length = 0 then (r, [])
  else (redrawCanvas { r with drawingHistory := r.drawingHistory.dropLast }, [])

/-- `handleClear` (lines 230–238): guarded by `isConnected`; clears the
canvas and history, then publishes a clear message. -/
def handleClear (r : Replica) : Replica × List OutMsg :=
  if r.isConnected then (clearCanvas r, [.clear r.userId])
  else (r, [])

/-- `startDrawing` (lines 133–146): ignored unless connected; otherwise
set `isDrawing`, start `currentStroke` at the pointer position and begin
a canvas path there. -/
def startDrawing (r : Replica) (p : Point) : Replica :=
  if r.isConnected then
    { r with
        isDrawing := true
        currentStroke := [p]
        ctx := ([CanvasCmd.beginPath, .moveTo p]).foldl applyCmd r.ctx }
  else r

/-- The canvas calls one `draw` move event issues (lines 158–168):
the tool's settings branch, `lineTo` the new point and `stroke()`. -/
def drawCmds (tool : Tool) (color : String) (size : Nat) (p : Point) : List CanvasCmd :=
  settingsCmds (toolType tool) color size ++ [.lineTo p, .strokeCmd]

/-- `draw` (lines 148–169): ignored unless a gesture is active and the
replica is connected; otherwise append the point to `currentStroke` and
stroke the extended path with the current tool settings. -/
def draw (r : Replica) (p : Point) : Replica :=
  if r.isDrawing ∧ r.isConnected then
    { r with
        currentStroke := r.currentStroke ++ [p]
        ctx := (drawCmds r.tool r.color r.size p).foldl applyCmd r.ctx }
  else r

/-- The `DrawingData` record `stopDrawing` commits (lines 176–183):
every field is taken verbatim from the gesture and tool state; `id` and
`timestamp` come from `Date.now()`, taken here as parameters. -/
def commitStroke (tool : Tool) (color : String) (size : Nat)
    (points : List Point) (id : String) (ts : Nat) : DrawingData :=
  { id := id, type := toolType tool, points := points, color := color,
    size := size, timestamp := ts }

/-- `stopDrawing` (lines 171–194): ignored unless a gesture is active,
the replica is connected and the stroke is non-empty.  Otherwise it
clears `isDrawing`, pushes the committed stroke onto the history ref,
then `await`s one `publish` attempt; `pubOk` is the outcome of that
attempt.  On failure the `await` rethrows, so the trailing
`setCurrentStroke([])` is skipped — but the push and the rendered stroke
are never rolled back, and the publish is not retried. -/
def stopDrawing (r : Replica) (id : String) (ts : Nat) (pubOk : Bool) :
    Replica × List OutMsg :=
  if r.isDrawing ∧ r.isConnected ∧ ¬ r.currentStroke.length = 0 then
    let d := commitStroke r.tool r.color r.size r.currentStroke id ts
    let r1 := { r with isDrawing := false, drawingHistory := r.drawingHistory ++ [d] }
    if pubOk then ({ r1 with currentStroke := [] }, [.draw d r.userId])
    else (r1, [.draw d r.userId])
  else (r, [])

/-- The `channel.onMessage` handler (lines 80–90): a draw message from a
different user is replayed with `drawRemoteStroke` (and nothing else — in
particular it is not pushed onto the history ref and not re-published); a
clear message calls `clearCanvas`; anything else is ignored. -/
def onMessage (r : Replica) (m : InboundMsg) : Replica × List OutMsg :=
  if m.type = "draw" ∧ m.userId ≠ r.userId then
    ({ r with ctx := drawRemoteStroke r.ctx m.data }, [])
  else if m.type = "clear" then
    (clearCanvas r, [])
  else (r, [])

/-- The `channel.onPresence` handler (lines 91–93): `setOnlineUsers(users)`
— the delivered snapshot fully replaces the previous membership state. -/
def onPresence (r : Replica) (users : List Participant) : Replica :=
  { r with onlineUsers := users }

/-- The online count the header renders: `onlineUsers.length` (line 274). -/
def onlineCount (r : Replica) : Nat :=
  r.onlineUsers.length

/-- The context right after the mount effect (lines 101–117): white fill,
empty raster, default settings. -/
def initCtx : Ctx :=
  { ops := [], path := [], composite := .sourceOver, strokeStyle := "#000000",
    lineWidth := 1, fillStyle := "#ffffff" }

/-- A freshly connected replica with the initial hook state. -/
def freshReplica (uid : String) : Replica :=
  { userId := uid, isDrawing := false, tool := .pen, color := "#000000",
    size := 3, currentStroke := [], onlineUsers := [], isConnected := true,
    drawingHistory := [], ctx := initCtx }

/-- The spec scenario stroke: points `[(0,0),(10,10)]`, color `#ff0000`,
width 3, committed by participant A. -/
def strokeA : DrawingData :=
  { id := "1", type := .draw, points := [⟨0, 0⟩, ⟨10, 10⟩], color := "#ff0000",
    size := 3, timestamp := 1 }

/-- A second committed stroke, used for histories of length two. -/
def strokeB : DrawingData :=
  { id := "2", type := .erase, points := [⟨5, 5⟩, ⟨6, 6⟩], color := "#000000",
    size := 4, timestamp := 2 }

/-- The wire message participant A's publish delivers to B. -/
def msgA : InboundMsg :=
  { type := "draw", userId := "userA", data := strokeA }

/-- A's replica holding the two-stroke history `[strokeA, strokeB]`. -/
def replicaTwo : Replica :=
  { freshReplica "userA" with drawingHistory := [strokeA, strokeB] }

/-- A's replica holding the one-stroke history `[strokeA]`. -/
def replicaOne : Replica :=
  { freshReplica "userA" with drawingHistory := [strokeA] }

/-- A's replica in the middle of a two-point gesture. -/
def replicaMid : Replica :=
  { freshReplica "userA" with
      isDrawing := true,
      currentStroke := [⟨0, 0⟩, ⟨10, 10⟩] }

/-- A's replica before the subscribe promise resolves (not connected). -/
def replicaOff : Replica :=
  { freshReplica "userA" with isConnected := false }

/-- A draw message carrying an empty point list. -/
def msgEmpty : InboundMsg :=
  { msgA with data := { strokeA with points := [] } }

/-- Replaying `lineTo` commands over a list of points visits exactly
those points. -/
theorem lineToPoints_map_lineTo (l : List Point) :
    lineToPoints (l.map CanvasCmd.lineTo) = l := by
  induction l with
  | nil => rfl
  | cons a t ih => simp [lineToPoints, ih]

/-- `lineToPoints` distributes over command-stream concatenation. -/
theorem lineToPoints_append (a b : List CanvasCmd) :
    lineToPoints (a ++ b) = lineToPoints a ++ lineToPoints b := by
  induction a with
  | nil => rfl
  | cons c t ih => cases c <;> simp [lineToPoints, ih]

/-- `lineTo` commands assign no stroke color. -/
theorem colorSettings_map_lineTo (l : List Point) :
    colorSettings (l.map CanvasCmd.lineTo) = [] := by
  induction l with
  | nil => rfl
  | cons a t ih => simp [colorSettings, ih]

/-- `colorSettings` distributes over command-stream concatenation. -/
theorem colorSettings_append (a b : List CanvasCmd) :
    colorSettings (a ++ b) = colorSettings a ++ colorSettings b := by
  induction a with
  | nil => rfl
  | cons c t ih => cases c <;> simp [colorSettings, ih]

/-- `lineTo` commands assign no line width. -/
theorem widthSettings_map_lineTo (l : List Point) :
    widthSettings (l.map CanvasCmd.lineTo) = [] := by
  induction l with
  | nil => rfl
  | cons a t ih => simp [widthSettings, ih]

/-- `widthSettings` distributes over command-stream concatenation. -/
theorem widthSettings_append (a b : List CanvasCmd) :
    widthSettings (a ++ b) = widthSettings a ++ widthSettings b := by
  induction a with
  | nil => rfl
  | cons c t ih => cases c <;> simp [widthSettings, ih]

/-- `lineTo` commands assign no compositing operation. -/
theorem compositeSettings_map_lineTo (l : List Point) :
    compositeSettings (l.map CanvasCmd.lineTo) = [] := by
  induction l with
  | nil => rfl
  | cons a t ih => simp [compositeSettings, ih]

/-- `compositeSettings` distributes over command-stream concatenation. -/
theorem compositeSettings_append (a b : List CanvasCmd) :
    compositeSettings (a ++ b) = compositeSettings a ++ compositeSettings b := by
  induction a with
  | nil => rfl
  | cons c t ih => cases c <;> simp [compositeSettings, ih]

/-- C9: the reported online-count equals the size of the most recently
delivered presence snapshot; each snapshot fully replaces the previous
membership state, with no merging and no locally inferred count. -/
theorem C9_presence_replace (r : Replica) (users : List Participant) :
    (onPresence r users).onlineUsers = users ∧
    onlineCount (onPresence r users) = users.length := by
  constructor <;> rfl

/-- C10: `handleUndo` on an empty history is a total no-op: the replica
(history and rendered surface included) is unchanged and nothing is
published. -/
theorem C10_undo_empty_noop (r : Replica) (h : r.drawingHistory = []) :
    handleUndo r = (r, []) := by
  simp [handleUndo, h]

/-- Witness for C10 at a concrete replica with empty history. -/
theorem C10_undo_empty_noop_witness :
    (freshReplica "userA").drawingHistory = [] ∧
    handleUndo (freshReplica "userA") = (freshReplica "userA", []) :=
  ⟨rfl, C10_undo_empty_noop (freshReplica "userA") rfl⟩

/-- C2 as claimed is violated by the code: on a history of length 2, undo
leaves a history of length 0 (not 1) with the first entry gone and the
surface blanked, because `redrawCanvas` calls `clearCanvas`, which resets
the history ref before the replay loop reads it.  No message is
published. -/
theorem C2_undo_clears_history :
    replicaTwo.drawingHistory.length = 2 ∧
    (handleUndo replicaTwo).1.drawingHistory = [] ∧
    (handleUndo replicaTwo).1.ctx.ops = [] ∧
    (handleUndo replicaTwo).2 = [] := by
  refine ⟨?_, ?_, ?_, ?_⟩ <;> rfl

/-- C1 as stated is false at the spec's own scenario: after B's
`onMessage` handler processes A's draw message, B's history is still
empty — the received stroke is rendered but never appended to the
history ref. -/
theorem C1_remote_draw_counterexample :
    (onMessage (freshReplica "userB") msgA).1.drawingHistory = [] ∧
    strokeA ∉ (onMessage (freshReplica "userB") msgA).1.drawingHistory := by
  refine ⟨rfl, ?_⟩
  decide

/-- C1 amended: for every inbound draw message whose `userId` differs
from the local participant's id, the handler renders the received stroke
on the surface and publishes nothing; the Local History is left
unchanged, so the receiving replica's history does not gain the received
stroke. -/
theorem C1_remote_draw (r : Replica) (m : InboundMsg)
    (ht : m.type = "draw") (hu : m.userId ≠ r.userId) :
    onMessage r m = ({ r with ctx := drawRemoteStroke r.ctx m.data }, []) ∧
    (onMessage r m).1.drawingHistory = r.drawingHistory := by
  have h : onMessage r m = ({ r with ctx := drawRemoteStroke r.ctx m.data }, []) := by
    simp [onMessage, ht, hu]
  exact ⟨h, by rw [h]⟩

/-- Witness for C1 amended at the spec scenario: B receives A's stroke. -/
theorem C1_remote_draw_witness :
    msgA.type = "draw" ∧ msgA.userId ≠ (freshReplica "userB").userId ∧
    (onMessage (freshReplica "userB") msgA =
      ({ freshReplica "userB" with
          ctx := drawRemoteStroke (freshReplica "userB").ctx msgA.data }, []) ∧
     (onMessage (freshReplica "userB") msgA).1.drawingHistory =
       (freshReplica "userB").drawingHistory) :=
  ⟨rfl, by decide, C1_remote_draw (freshReplica "userB") msgA rfl (by decide)⟩

/-- C3: after the local clear operation (while connected), the history
has length 0, the rendered surface equals the solid white background fill
(no painted ops remain and the fill style is white), and the triggering
replica publishes a clear message on the channel. -/
theorem C3_clear (r : Replica) (hc : r.isConnected = true) :
    (handleClear r).1.drawingHistory = [] ∧
    (handleClear r).1.ctx.ops = [] ∧
    (handleClear r).1.ctx.fillStyle = "#ffffff" ∧
    (handleClear r).2 = [.clear r.userId] := by
  simp [handleClear, hc, clearCanvas]

/-- Witness for C3 at a concrete connected replica with content. -/
theorem C3_clear_witness :
    replicaOne.isConnected = true ∧
    ((handleClear replicaOne).1.drawingHistory = [] ∧
     (handleClear replicaOne).1.ctx.ops = [] ∧
     (handleClear replicaOne).1.ctx.fillStyle = "#ffffff" ∧
     (handleClear replicaOne).2 = [.clear replicaOne.userId]) :=
  ⟨rfl, C3_clear replicaOne rfl⟩

/-- C5: when the publish of a committed stroke fails, the already-applied
local state is not rolled back and the publish is not retried: for either
publish outcome, the stroke is appended to the history, the rendered
surface (everything drawn incrementally during the gesture) is untouched,
and exactly one publish attempt is made. -/
theorem C5_publish_no_rollback (r : Replica) (id : String) (ts : Nat)
    (hd : r.isDrawing = true) (hc : r.isConnected = true)
    (hs : ¬ r.currentStroke.length = 0) (pubOk : Bool) :
    (stopDrawing r id ts pubOk).1.drawingHistory =
      r.drawingHistory ++ [commitStroke r.tool r.color r.size r.currentStroke id ts] ∧
    (stopDrawing r id ts pubOk).1.ctx = r.ctx ∧
    (stopDrawing r id ts pubOk).2 =
      [.draw (commitStroke r.tool r.color r.size r.currentStroke id ts) r.userId] := by
  cases pubOk <;> simp [stopDrawing, hd, hc, hs]

/-- Witness for C5: a mid-gesture replica whose publish fails. -/
theorem C5_publish_no_rollback_witness :
    replicaMid.isDrawing = true ∧
    replicaMid.isConnected = true ∧
    ¬ replicaMid.currentStroke.length = 0 ∧
    ((stopDrawing replicaMid "1" 1 false).1.drawingHistory =
      replicaMid.drawingHistory ++
        [commitStroke replicaMid.tool replicaMid.color replicaMid.size
          replicaMid.currentStroke "1" 1] ∧
     (stopDrawing replicaMid "1" 1 false).1.ctx = replicaMid.ctx ∧
     (stopDrawing replicaMid "1" 1 false).2 =
      [.draw (commitStroke replicaMid.tool replicaMid.color replicaMid.size
          replicaMid.currentStroke "1" 1) replicaMid.userId]) :=
  ⟨rfl, rfl, by decide, C5_publish_no_rollback replicaMid "1" 1 rfl rfl (by decide) false⟩

/-- C7: a malformed inbound draw message with an empty point list is
dropped: `drawRemoteStroke` leaves the context untouched, and the whole
`onMessage` step leaves the replica unchanged and publishes nothing; both
are total functions, so no error is raised or propagated. -/
theorem C7_empty_points_dropped (ctx : Ctx) (d : DrawingData)
    (r : Replica) (m : InboundMsg)
    (hd : d.points = []) (hm : m.data.points = [])
    (ht : m.type = "draw") (hu : m.userId ≠ r.userId) :
    drawRemoteStroke ctx d = ctx ∧ onMessage r m = (r, []) := by
  constructor
  · simp [drawRemoteStroke, drawRemoteStrokeCmds, hd]
  · simp [onMessage, ht, hu, drawRemoteStroke, drawRemoteStrokeCmds, hm]

/-- Witness for C7: B receives a draw message with an empty point list. -/
theorem C7_empty_points_dropped_witness :
    msgEmpty.data.points = [] ∧
    msgEmpty.type = "draw" ∧
    msgEmpty.userId ≠ (freshReplica "userB").userId ∧
    (drawRemoteStroke initCtx msgEmpty.data = initCtx ∧
     onMessage (freshReplica "userB") msgEmpty = (freshReplica "userB", [])) :=
  ⟨rfl, rfl, by decide,
    C7_empty_points_dropped initCtx msgEmpty.data (freshReplica "userB") msgEmpty
      rfl rfl rfl (by decide)⟩

/-- C8: drawing input is accepted only while connected: when
`isConnected` is false (the Disconnected and Connecting phases), each of
`startDrawing`, `draw` and `stopDrawing` leaves the replica completely
unchanged — history, surface and pending stroke included — and publishes
nothing, so no gesture is queued for later. -/
theorem C8_disconnected_ignored (r : Replica) (p : Point) (id : String)
    (ts : Nat) (pubOk : Bool) (hc : r.isConnected = false) :
    startDrawing r p = r ∧ draw r p = r ∧ stopDrawing r id ts pubOk = (r, []) := by
  refine ⟨?_, ?_, ?_⟩ <;> simp [startDrawing, draw, stopDrawing, hc]

/-- Witness for C8 at a concrete disconnected replica. -/
theorem C8_disconnected_ignored_witness :
    replicaOff.isConnected = false ∧
    (startDrawing replicaOff ⟨1, 2⟩ = replicaOff ∧
     draw replicaOff ⟨1, 2⟩ = replicaOff ∧
     stopDrawing replicaOff "1" 1 true = (replicaOff, [])) :=
  ⟨rfl, C8_disconnected_ignored replicaOff ⟨1, 2⟩ "1" 1 true rfl⟩

/-- C4: encoding a (non-empty) pointer-sample sequence into a committed
stroke keeps every field verbatim — the ordered point list, the color,
the width and the kind derived from the tool — and decoding that stroke
back into draw commands replays exactly the same ordered point list; for
a Draw stroke the replay also uses exactly the recorded color and width.
No resampling, smoothing or simplification occurs. -/
theorem C4_roundtrip (tool : Tool) (color : String) (size : Nat)
    (points : List Point) (id : String) (ts : Nat) (h : points ≠ []) :
    (commitStroke tool color size points id ts).points = points ∧
    (commitStroke tool color size points id ts).color = color ∧
    (commitStroke tool color size points id ts).size = size ∧
    (commitStroke tool color size points id ts).type = toolType tool ∧
    lineToPoints (drawRemoteStrokeCmds (commitStroke tool color size points id ts)) = points ∧
    (tool = .pen →
      colorSettings (drawRemoteStrokeCmds (commitStroke tool color size points id ts)) = [color] ∧
      widthSettings (drawRemoteStrokeCmds (commitStroke tool color size points id ts)) = [size]) := by
  obtain ⟨p, rest, rfl⟩ : ∃ p rest, points = p :: rest := by
    cases points with
    | nil => exact absurd rfl h
    | cons p rest => exact ⟨p, rest, rfl⟩
  cases tool <;>
    simp [commitStroke, toolType, drawRemoteStrokeCmds, settingsCmds,
      lineToPoints, colorSettings, widthSettings, lineToPoints_append,
      colorSettings_append, widthSettings_append, lineToPoints_map_lineTo,
      colorSettings_map_lineTo, widthSettings_map_lineTo]

/-- Witness for C4 at the spec scenario gesture. -/
theorem C4_roundtrip_witness :
    ([(⟨0, 0⟩ : Point), ⟨10, 10⟩] ≠ ([] : List Point)) ∧
    ((commitStroke .pen "#ff0000" 3 [⟨0, 0⟩, ⟨10, 10⟩] "1" 1).points = [⟨0, 0⟩, ⟨10, 10⟩] ∧
     (commitStroke .pen "#ff0000" 3 [⟨0, 0⟩, ⟨10, 10⟩] "1" 1).color = "#ff0000" ∧
     (commitStroke .pen "#ff0000" 3 [⟨0, 0⟩, ⟨10, 10⟩] "1" 1).size = 3 ∧
     (commitStroke .pen "#ff0000" 3 [⟨0, 0⟩, ⟨10, 10⟩] "1" 1).type = toolType .pen ∧
     lineToPoints (drawRemoteStrokeCmds (commitStroke .pen "#ff0000" 3 [⟨0, 0⟩, ⟨10, 10⟩] "1" 1)) =
       [⟨0, 0⟩, ⟨10, 10⟩] ∧
     (Tool.pen = .pen →
       colorSettings (drawRemoteStrokeCmds (commitStroke .pen "#ff0000" 3 [⟨0, 0⟩, ⟨10, 10⟩] "1" 1)) =
         ["#ff0000"] ∧
       widthSettings (drawRemoteStrokeCmds (commitStroke .pen "#ff0000" 3 [⟨0, 0⟩, ⟨10, 10⟩] "1" 1)) =
         [3])) :=
  ⟨by decide, C4_roundtrip .pen "#ff0000" 3 [⟨0, 0⟩, ⟨10, 10⟩] "1" 1 (by decide)⟩

/-- C6: an erase stroke is rendered — on both the local incremental path
and the remote replay — with an effective destructive-brush width of
`width × 2`, destination-out compositing, and no stroke-color assignment
at all (the recorded color is ignored); a draw stroke uses the configured
color and width as recorded, with source-over compositing. -/
theorem C6_erase_double_width (color : String) (size : Nat) (p : Point)
    (d : DrawingData) (hp : d.points ≠ []) :
    (widthSettings (drawCmds .eraser color size p) = [size * 2] ∧
     colorSettings (drawCmds .eraser color size p) = [] ∧
     compositeSettings (drawCmds .eraser color size p) = [.destinationOut]) ∧
    (widthSettings (drawCmds .pen color size p) = [size] ∧
     colorSettings (drawCmds .pen color size p) = [color] ∧
     compositeSettings (drawCmds .pen color size p) = [.sourceOver]) ∧
    (d.type = .erase →
      widthSettings (drawRemoteStrokeCmds d) = [d.size * 2] ∧
      colorSettings (drawRemoteStrokeCmds d) = [] ∧
      compositeSettings (drawRemoteStrokeCmds d) = [.destinationOut]) ∧
    (d.type = .draw →
      widthSettings (drawRemoteStrokeCmds d) = [d.size] ∧
      colorSettings (drawRemoteStrokeCmds d) = [d.color] ∧
      compositeSettings (drawRemoteStrokeCmds d) = [.sourceOver]) := by
  obtain ⟨q, rest, hq⟩ : ∃ q rest, d.points = q :: rest := by
    cases hpts : d.points with
    | nil => exact absurd hpts hp
    | cons q rest => exact ⟨q, rest, rfl⟩
  refine ⟨?_, ?_, ?_, ?_⟩
  · simp [drawCmds, settingsCmds, toolType, widthSettings, colorSettings,
      compositeSettings, widthSettings_append, colorSettings_append,
      compositeSettings_append]
  · simp [drawCmds, settingsCmds, toolType, widthSettings, colorSettings,
      compositeSettings, widthSettings_append, colorSettings_append,
      compositeSettings_append]
  · intro ht
    simp [drawRemoteStrokeCmds, hq, ht, settingsCmds, widthSettings,
      colorSettings, compositeSettings, widthSettings_append,
      colorSettings_append, compositeSettings_append,
      widthSettings_map_lineTo, colorSettings_map_lineTo,
      compositeSettings_map_lineTo]
  · intro ht
    simp [drawRemoteStrokeCmds, hq, ht, settingsCmds, widthSettings,
      colorSettings, compositeSettings, widthSettings_append,
      colorSettings_append, compositeSettings_append,
      widthSettings_map_lineTo, colorSettings_map_lineTo,
      compositeSettings_map_lineTo]

/-- Witness for C6 at the concrete erase stroke of width 4. -/
theorem C6_erase_double_width_witness :
    strokeB.points ≠ [] ∧
    ((widthSettings (drawCmds .eraser "#000000" 4 ⟨5, 5⟩) = [4 * 2] ∧
      colorSettings (drawCmds .eraser "#000000" 4 ⟨5, 5⟩) = [] ∧
      compositeSettings (drawCmds .eraser "#000000" 4 ⟨5, 5⟩) = [.destinationOut]) ∧
     (widthSettings (drawCmds .pen "#000000" 4 ⟨5, 5⟩) = [4] ∧
      colorSettings (drawCmds .pen "#000000" 4 ⟨5, 5⟩) = ["#000000"] ∧
      compositeSettings (drawCmds .pen "#000000" 4 ⟨5, 5⟩) = [.sourceOver]) ∧
     (strokeB.type = .erase →
       widthSettings (drawRemoteStrokeCmds strokeB) = [strokeB.size * 2] ∧
       colorSettings (drawRemoteStrokeCmds strokeB) = [] ∧
       compositeSettings (drawRemoteStrokeCmds strokeB) = [.destinationOut]) ∧
     (strokeB.type = .draw →
       widthSettings (drawRemoteStrokeCmds strokeB) = [strokeB.size] ∧
       colorSettings (drawRemoteStrokeCmds strokeB) = [strokeB.color] ∧
       compositeSettings (drawRemoteStrokeCmds strokeB) = [.sourceOver])) :=
  ⟨by decide, C6_erase_double_width "#000000" 4 ⟨5, 5⟩ strokeB (by decide)⟩

end Whiteboard
